import Mathlib

/-!
Shallow embedding of the data-acquisition and caching subsystem of the
rust-faker repository (src/regions.rs, src/cache.rs, src/download.rs,
src/generators/addresses.rs), together with theorems settling the frozen
claims about it.

Conventions of the embedding:
* Rust `String`/`&str` values are Lean `String`s; Rust's Unicode-aware
  `to_uppercase`/`to_lowercase`/`trim` are modelled by their ASCII
  restrictions (all keys and headers handled by this program are ASCII).
* Filesystem and network effects are passed explicitly: the filesystem is a
  `CacheFS` record of pure predicates, the network is a function from the
  attempt index to the outcome of that HTTP attempt, and randomness is an
  injected `shuffle` function.
* Machine integers (`u16` status codes, `u32` versions, `usize` counts)
  are `Nat`; none of the modelled code exercises overflow.
* Fallible Rust functions returning `io::Result` become `Except ErrKind`.
-/

namespace RustFaker

/-- The `std::io::ErrorKind` values used by the modelled code. -/
inductive ErrKind where
  | invalidInput
  | invalidData
  | notFound
  | other
deriving DecidableEq

/-! ## ASCII case mapping and trimming (models of Rust `str` methods) -/

/-- ASCII restriction of Rust's `char::to_uppercase`: maps `a`-`z` to
`A`-`Z` and leaves every other character unchanged. -/
def char_to_ascii_upper (c : Char) : Char :=
  if 97 ≤ c.toNat ∧ c.toNat ≤ 122 then Char.ofNat (c.toNat - 32) else c

/-- ASCII restriction of Rust's `str::to_uppercase`. -/
def to_uppercase (s : String) : String :=
  ⟨s.data.map char_to_ascii_upper⟩

/-- ASCII restriction of Rust's `char::to_lowercase`: maps `A`-`Z` to
`a`-`z` and leaves every other character unchanged. -/
def char_to_ascii_lower (c : Char) : Char :=
  if 65 ≤ c.toNat ∧ c.toNat ≤ 90 then Char.ofNat (c.toNat + 32) else c

/-- ASCII restriction of Rust's `str::to_lowercase`. -/
def to_lowercase (s : String) : String :=
  ⟨s.data.map char_to_ascii_lower⟩

/-- ASCII whitespace, the fragment of the Unicode `White_Space` property
(used by Rust's `str::trim`) that the modelled data can contain. -/
def is_ascii_ws (c : Char) : Bool :=
  c = ' ' ∨ c = '\t' ∨ c = '\n' ∨ c = '\r' ∨ c = '\x0b' ∨ c = '\x0c'

/-- Model of Rust's `str::trim`: removes leading and trailing whitespace. -/
def rust_trim (s : String) : String :=
  ⟨((s.data.dropWhile is_ascii_ws).reverse.dropWhile is_ascii_ws).reverse⟩

/-! ## `src/regions.rs` -/

/-- `REGION_NORTHEAST` in `src/regions.rs`. -/
def REGION_NORTHEAST : String :=
  "https://data.openaddresses.io/openaddr-collected-us_northeast.zip"

/-- `REGION_MIDWEST` in `src/regions.rs`. -/
def REGION_MIDWEST : String :=
  "https://data.openaddresses.io/openaddr-collected-us_midwest.zip"

/-- `REGION_SOUTH` in `src/regions.rs`. -/
def REGION_SOUTH : String :=
  "https://data.openaddresses.io/openaddr-collected-us_south.zip"

/-- `REGION_WEST` in `src/regions.rs`. -/
def REGION_WEST : String :=
  "https://data.openaddresses.io/openaddr-collected-us_west.zip"

/-- `ALL_STATES` in `src/regions.rs`: the 50 US states plus DC. -/
def ALL_STATES : List String :=
  ["AK", "AL", "AR", "AZ", "CA", "CO", "CT", "DC", "DE", "FL", "GA", "HI",
   "IA", "ID", "IL", "IN", "KS", "KY", "LA", "MA", "MD", "ME", "MI", "MN",
   "MO", "MS", "MT", "NC", "ND", "NE", "NH", "NJ", "NM", "NV", "NY", "OH",
   "OK", "OR", "PA", "RI", "SC", "SD", "TN", "TX", "UT", "VA", "VT", "WA",
   "WI", "WV", "WY"]

/-- The or-pattern of the Northeast arm of the `match` in `get_region_url`. -/
def northeast_keys : List String :=
  ["CT", "ME", "MA", "NH", "NJ", "NY", "PA", "RI", "VT"]

/-- The or-pattern of the Midwest arm of the `match` in `get_region_url`. -/
def midwest_keys : List String :=
  ["IL", "IN", "IA", "KS", "MI", "MN", "MO", "NE", "ND", "OH", "SD", "WI"]

/-- The or-pattern of the South arm of the `match` in `get_region_url`. -/
def south_keys : List String :=
  ["AL", "AR", "DE", "DC", "FL", "GA", "KY", "LA", "MD", "MS", "NC", "OK",
   "SC", "TN", "TX", "VA", "WV"]

/-- The or-pattern of the West arm of the `match` in `get_region_url`. -/
def west_keys : List String :=
  ["AK", "AZ", "CA", "CO", "HI", "ID", "MT", "NV", "NM", "OR", "UT", "WA",
   "WY"]

/-- `get_region_url` in `src/regions.rs`: upper-cases the state code and
matches it against the four regional or-patterns. -/
def get_region_url (state : String) : Option String :=
  let state_upper := to_uppercase state
  if state_upper ∈ northeast_keys then some REGION_NORTHEAST
  else if state_upper ∈ midwest_keys then some REGION_MIDWEST
  else if state_upper ∈ south_keys then some REGION_SOUTH
  else if state_upper ∈ west_keys then some REGION_WEST
  else none

/-- `is_valid_state` in `src/regions.rs`: membership of the upper-cased
code in `ALL_STATES`. -/
def is_valid_state (state : String) : Bool :=
  ALL_STATES.contains (to_uppercase state)

/-! ## `src/generators/addresses.rs`: `Address`, `detect_delimiter`,
and the count handling of `load_addresses_from_csv` -/

/-- The `Address` struct of `src/generators/addresses.rs`. -/
structure Address where
  address1 : String
  address2 : String
  city : String
  state : String
  zip : String
deriving DecidableEq

/-- Number of occurrences of the character `c` in `line`, modelling
`line.matches(c).count()` for a one-character pattern. -/
def count_char (line : String) (c : Char) : Nat :=
  line.data.count c

/-- `detect_delimiter` in `src/generators/addresses.rs`. The Rust function
returns the delimiter byte (`b','`, `b'|'`, `b'\t'`); the model returns the
corresponding character. -/
def detect_delimiter (line : String) : Char :=
  let comma_count := count_char line ','
  let pipe_count := count_char line '|'
  let tab_count := count_char line '\t'
  if pipe_count > comma_count ∧ pipe_count > tab_count then '|'
  else if tab_count > comma_count ∧ tab_count > pipe_count then '\t'
  else ','

/-- `shuffle_and_limit` in `src/download.rs`. The in-place
`addresses.shuffle(&mut rand::thread_rng())` is modelled by an injected
`shuffle` function (assumed in the theorems to permute its input); the
`truncate` call is `List.take`. -/
def shuffle_and_limit (shuffle : List Address → List Address)
    (addresses : List Address) (limit : Nat) : List Address :=
  let shuffled := shuffle addresses
  if shuffled.length > limit then shuffled.take limit else shuffled

/-- The count-handling tail of `load_addresses_from_csv` in
`src/generators/addresses.rs`: given the fully parsed address list and the
optional requested count, returns the final list together with whether the
"Requested ... but only ... available" warning was printed. The random
shuffle is again an injected function. -/
def apply_count_limit (shuffle : List Address → List Address)
    (addresses : List Address) (count : Option Nat) : List Address × Bool :=
  match count with
  | none => (addresses, false)
  | some requested =>
    if requested ≥ addresses.length then
      (addresses, decide (requested > addresses.length))
    else
      ((shuffle addresses).take requested, false)

/-! ## `src/cache.rs` -/

/-- `StateCache` in `src/cache.rs`: metadata for one cached state. -/
structure StateCache where
  downloaded_at : String
  source_url : String
  record_count : Nat
deriving DecidableEq

/-- `CacheManifest` in `src/cache.rs`. The `HashMap<String, StateCache>` is
modelled as an association list with unique keys; `contains_key` is
`(states.lookup key).isSome`. -/
structure CacheManifest where
  version : Nat
  states : List (String × StateCache)
deriving DecidableEq

/-- `CacheManifest::default()`: the zero-value manifest. -/
def CacheManifest.zero : CacheManifest := ⟨0, []⟩

/-- Ambient filesystem state seen by the cache store. `manifest_file`
models the content of `manifest.json` through its parse outcome: `none` =
no file, `some none` = file present but malformed JSON, `some (some m)` =
file present and deserializing to `m` (serde_json is external to the
model). `path_exists` and `is_dir` model `Path::exists` / `Path::is_dir`
on path strings; `home` models `dirs::home_dir()` (assumed present). -/
structure CacheFS where
  home : String
  manifest_file : Option (Option CacheManifest)
  path_exists : String → Bool
  is_dir : String → Bool

/-- `get_cache_dir` in `src/cache.rs`: `~/.rust-faker/cache/addresses`. -/
def get_cache_dir (fs : CacheFS) : String :=
  fs.home ++ "/.rust-faker/cache/addresses"

/-- `get_manifest_path` in `src/cache.rs`. -/
def get_manifest_path (fs : CacheFS) : String :=
  get_cache_dir fs ++ "/manifest.json"

/-- `get_state_cache_path` in `src/cache.rs`:
`<cache_dir>/<STATE>.csv` with the state code upper-cased. -/
def get_state_cache_path (fs : CacheFS) (state : String) : String :=
  get_cache_dir fs ++ "/" ++ to_uppercase state ++ ".csv"

/-- `load_manifest` in `src/cache.rs`: zero-value manifest when the file
does not exist, deserialized manifest when it parses, and an
`InvalidData` error when the file exists but is malformed. -/
def load_manifest (fs : CacheFS) : Except ErrKind CacheManifest :=
  match fs.manifest_file with
  | none => .ok CacheManifest.zero
  | some none => .error .invalidData
  | some (some m) => .ok m

/-- `is_state_cached` in `src/cache.rs`: the upper-cased key must be in the
loaded manifest's map and the per-state artifact file must exist. -/
def is_state_cached (fs : CacheFS) (state : String) : Except ErrKind Bool :=
  match load_manifest fs with
  | .error e => .error e
  | .ok manifest =>
    let state_upper := to_uppercase state
    if (manifest.states.lookup state_upper).isSome then
      .ok (fs.path_exists (get_state_cache_path fs state))
    else
      .ok false

/-- Characters after the last `/`, modelling
`region_url.rsplit('/').next().unwrap_or("region")` in
`extract_region_name` (the `rsplit` iterator always yields at least one
item, so the `"region"` fallback never fires). -/
def after_last_slash (l : List Char) : List Char :=
  (l.reverse.takeWhile (fun c => c ≠ '/')).reverse

/-- Repeatedly strips the suffix `".zip"`, modelling
`str::trim_end_matches(".zip")`; `fuel` bounds the recursion (the list
length always suffices, since each strip shortens the list). -/
def trim_end_zip_aux : Nat → List Char → List Char
  | 0, l => l
  | fuel + 1, l =>
    if [ '.', 'z', 'i', 'p'].isSuffixOf l then
      trim_end_zip_aux fuel (l.take (l.length - 4))
    else l

/-- `trim_end_matches(".zip")` applied to a character list. -/
def trim_end_zip (l : List Char) : List Char :=
  trim_end_zip_aux l.length l

/-- Removes every occurrence of `"openaddr-collected-"`, modelling
`str::replace("openaddr-collected-", "")`; `fuel` bounds the recursion
(the list length always suffices). -/
def remove_collected_aux : Nat → List Char → List Char
  | 0, l => l
  | _ + 1, [] => []
  | fuel + 1, c :: rest =>
    if ("openaddr-collected-".data).isPrefixOf (c :: rest) then
      remove_collected_aux fuel ((c :: rest).drop 19)
    else
      c :: remove_collected_aux fuel rest

/-- `str::replace("openaddr-collected-", "")` applied to a character list. -/
def remove_collected (l : List Char) : List Char :=
  remove_collected_aux l.length l

/-- `extract_region_name` in `src/cache.rs`: last URL segment, with the
`.zip` suffix and the `openaddr-collected-` vendor prefix removed. -/
def extract_region_name (region_url : String) : String :=
  ⟨remove_collected (trim_end_zip (after_last_slash region_url.data))⟩

/-- `get_region_zip_path` in `src/cache.rs`. -/
def get_region_zip_path (fs : CacheFS) (region_url : String) : String :=
  get_cache_dir fs ++ "/" ++ extract_region_name region_url ++ ".zip"

/-- `get_region_dir_path` in `src/cache.rs`. -/
def get_region_dir_path (fs : CacheFS) (region_url : String) : String :=
  get_cache_dir fs ++ "/" ++ extract_region_name region_url

/-- `CachedRegion` in `src/cache.rs`. -/
inductive CachedRegion where
  | zip (path : String)
  | directory (path : String)
deriving DecidableEq

/-- `get_cached_region` in `src/cache.rs`: the ZIP file is checked first
and takes precedence; the directory form requires the path to exist and be
a directory. -/
def get_cached_region (fs : CacheFS) (region_url : String) : Option CachedRegion :=
  let zip_path := get_region_zip_path fs region_url
  if fs.path_exists zip_path then
    some (.zip zip_path)
  else
    let dir_path := get_region_dir_path fs region_url
    if fs.path_exists dir_path && fs.is_dir dir_path then
      some (.directory dir_path)
    else
      none

/-- `save_region_zip` in `src/cache.rs`: writes the fetched bytes to the
region's zip path, modelled as making that path exist (the byte content is
irrelevant to the claims). -/
def save_region_zip (fs : CacheFS) (region_url : String) : CacheFS :=
  { fs with
    path_exists := fun p => p == get_region_zip_path fs region_url || fs.path_exists p }

/-! ## `src/download.rs`: `download_region` -/

/-- Outcome of one HTTP attempt: a transport/connection failure inside
`client.get(url).send()`, or a response with its status code and body. -/
inductive HttpResponse where
  | transport_err (msg : String)
  | resp (status : Nat) (body : List Nat)

/-- `reqwest::StatusCode::is_success`: status in `200..=299`. -/
def status_is_success (status : Nat) : Bool :=
  200 ≤ status && status ≤ 299

/-- Observable trace of one `download_region` call: how many HTTP attempts
were sent, the backoff sleeps (in seconds, in order) performed before
retries, and the final result. -/
structure FetchTrace where
  attempts_made : Nat
  sleeps : List Nat
  result : Except String (List Nat)

/-- The retry loop `for attempt in 0..=max_retries` of `download_region`
in `src/download.rs` (`max_retries = 3`), with the loop counter `attempt`
paired with structural fuel `4 - attempt`; fuel `0` means the loop has
exited and the final "exhausted all retries" error is returned. `net`
gives the outcome of each attempt. The status display is modelled by the
status number. -/
def download_region_go (net : Nat → HttpResponse) :
    Nat → Nat → String → List Nat → FetchTrace
  | 0, attempt, last_error, sleeps =>
    { attempts_made := attempt, sleeps := sleeps,
      result := .error (last_error ++ " - exhausted all 3 retries") }
  | fuel + 1, attempt, last_error, sleeps =>
    let sleeps' := if attempt > 0 then sleeps ++ [30 * 2 ^ (attempt - 1)] else sleeps
    match net attempt with
    | .transport_err e =>
      let last_error' := "HTTP request failed: " ++ e
      if attempt < 3 then
        download_region_go net fuel (attempt + 1) last_error' sleeps'
      else
        { attempts_made := attempt + 1, sleeps := sleeps', result := .error last_error' }
    | .resp status body =>
      if status_is_success status then
        { attempts_made := attempt + 1, sleeps := sleeps', result := .ok body }
      else if status = 429 then
        download_region_go net fuel (attempt + 1)
          ("HTTP error: " ++ toString status ++ " (rate limited)") sleeps'
      else
        { attempts_made := attempt + 1, sleeps := sleeps',
          result := .error ("HTTP error: " ++ toString status) }

/-- `download_region` in `src/download.rs`. -/
def download_region (net : Nat → HttpResponse) : FetchTrace :=
  download_region_go net 4 0 "" []

/-- An attempt outcome on which the fetch loop retries: a transport
failure or HTTP status 429. -/
def retryable : HttpResponse → Prop
  | .transport_err _ => True
  | .resp status _ => status = 429

/-- `pat` occurs as a contiguous sublist of the second argument. -/
def contains_sublist (pat : List Char) : List Char → Bool
  | [] => pat.isEmpty
  | c :: rest => pat.isPrefixOf (c :: rest) || contains_sublist pat rest

/-- The error message names the consumed retry budget. -/
def mentions_retry_budget (msg : String) : Bool :=
  contains_sublist "exhausted all 3 retries".data msg.data

/-! ## `src/download.rs`: `parse_openaddresses_csv` -/

/-- The column map of `parse_openaddresses_csv`: lower-cased header name
to column index, built by `HashMap::insert` over the headers in order, so
for duplicate headers the last occurrence wins — modelled by prepending to
an association list that `lookup` searches front to back. -/
def build_column_map (headers : List String) : List (String × Nat) :=
  (headers.enum).foldl (fun m p => (to_lowercase p.2, p.1) :: m) []

/-- `column_map.get(name)` in `parse_openaddresses_csv`. -/
def column_lookup (headers : List String) (name : String) : Option Nat :=
  (build_column_map headers).lookup name

/-- `number_idx`: `column_map.get("number").or_else(.. "house_number")`. -/
def number_idx (headers : List String) : Option Nat :=
  (column_lookup headers "number").orElse (fun _ => column_lookup headers "house_number")

/-- `street_idx`: `"street"` or `"street_name"`. -/
def street_idx (headers : List String) : Option Nat :=
  (column_lookup headers "street").orElse (fun _ => column_lookup headers "street_name")

/-- `unit_idx`: `"unit"` or `"apartment"`. -/
def unit_idx (headers : List String) : Option Nat :=
  (column_lookup headers "unit").orElse (fun _ => column_lookup headers "apartment")

/-- `city_idx`: `"city"` or `"locality"`. -/
def city_idx (headers : List String) : Option Nat :=
  (column_lookup headers "city").orElse (fun _ => column_lookup headers "locality")

/-- `state_idx`: `"region"` or `"state"`. -/
def state_idx (headers : List String) : Option Nat :=
  (column_lookup headers "region").orElse (fun _ => column_lookup headers "state")

/-- `zip_idx`: `"postcode"`, `"zip"` or `"postal_code"`. -/
def zip_idx (headers : List String) : Option Nat :=
  ((column_lookup headers "postcode").orElse
    (fun _ => column_lookup headers "zip")).orElse
    (fun _ => column_lookup headers "postal_code")

/-- Field extraction
`idx.and_then(|&idx| record.get(idx)).unwrap_or("").trim()`. -/
def get_field (idx : Option Nat) (record : List String) : String :=
  rust_trim ((idx.bind (fun i => record[i]?)).getD "")

/-- The trimmed number column of a row. -/
def resolved_number (headers record : List String) : String :=
  get_field (number_idx headers) record

/-- The trimmed street column of a row. -/
def resolved_street (headers record : List String) : String :=
  get_field (street_idx headers) record

/-- The trimmed unit column of a row. -/
def resolved_unit (headers record : List String) : String :=
  get_field (unit_idx headers) record

/-- The trimmed city column of a row. -/
def resolved_city (headers record : List String) : String :=
  get_field (city_idx headers) record

/-- The trimmed region/state column of a row. -/
def resolved_state (headers record : List String) : String :=
  get_field (state_idx headers) record

/-- The trimmed postcode column of a row. -/
def resolved_zip (headers record : List String) : String :=
  get_field (zip_idx headers) record

/-- Per-row body of the record loop of `parse_openaddresses_csv`: `none`
when the row is skipped (`continue`). -/
def parse_row (headers record : List String) : Option Address :=
  let number := resolved_number headers record
  let street := resolved_street headers record
  let unit := resolved_unit headers record
  let city := resolved_city headers record
  let state := resolved_state headers record
  let zip := resolved_zip headers record
  if street.isEmpty || city.isEmpty then
    none
  else
    let address1 := if !number.isEmpty && !street.isEmpty then number ++ " " ++ street else street
    some ⟨address1, unit, city, state, zip⟩

/-- `parse_openaddresses_csv` in `src/download.rs`, over the pre-parsed
CSV content (header row and data records as lists of field strings; the
`csv` crate's byte-level reading is external to the model). -/
def parse_openaddresses_csv (headers : List String) (records : List (List String)) :
    List Address :=
  records.filterMap (parse_row headers)

/-! ## `src/download.rs`: the `download_states` orchestrator -/

/-- The filter loop of `download_states`: keeps the upper-cased states
that are not already cached, unless `force` is set; mirrors
`force || !cache::is_state_cached(&state_upper)?` with Rust's
short-circuit (`is_state_cached` is not consulted when `force` holds). -/
def filter_uncached (fs : CacheFS) (force : Bool) : List String → Except ErrKind (List String)
  | [] => .ok []
  | s :: rest =>
    let state_upper := to_uppercase s
    let keep : Except ErrKind Bool :=
      if force then .ok true
      else
        match is_state_cached fs state_upper with
        | .error e => .error e
        | .ok cached => .ok (!cached)
    match keep with
    | .error e => .error e
    | .ok k =>
      match filter_uncached fs force rest with
      | .error e => .error e
      | .ok r => .ok (if k then state_upper :: r else r)

/-- Appends `s` to the bucket of `url`: an insertion-order-preserving view
of `regions_map.entry(region_url).or_default().push(state)` (the
`HashMap` iteration order is unspecified in Rust, but each bucket's
contents — and hence its download count — do not depend on it). -/
def upsert_group (g : List (String × List String)) (url s : String) :
    List (String × List String) :=
  match g with
  | [] => [(url, [s])]
  | (u, l) :: rest =>
    if u = url then (u, l ++ [s]) :: rest else (u, l) :: upsert_group rest url s

/-- The grouping loop of `download_states`: partitions the remaining
states by their region URL. -/
def group_by_region (states : List String) : List (String × List String) :=
  states.foldl (fun g s =>
    match get_region_url s with
    | none => g
    | some url => upsert_group g url s) []

/-- The per-bucket loop of `download_states`: `get_cached_region` is
evaluated once, before the per-state loop, and the per-state `match`
consults that same unchanged value; when it is `none` the state's
iteration downloads the region and saves the ZIP. Extraction, artifact
writing and manifest flushing cannot change which branch runs and are
omitted; the returned list records the URL of every `download_region`
call, in order. -/
def process_region (fs : CacheFS) (url : String) (sts : List String) :
    CacheFS × List String :=
  let cached := get_cached_region fs url
  sts.foldl (fun acc _s =>
    match cached with
    | some _ => acc
    | none => (save_region_zip acc.1 url, acc.2 ++ [url])) (fs, [])

/-- `download_states` in `src/download.rs`, modelled down to the
per-bucket download behaviour: validates every requested state, loads the
manifest, filters out cached states, groups the rest by region and
processes each bucket; returns the final filesystem and the list of
`download_region` calls (by region URL, in order). -/
def download_states (fs : CacheFS) (states : List String) (force : Bool) :
    Except ErrKind (CacheFS × List String) :=
  if states.all (fun s => is_valid_state s) = false then .error .invalidInput
  else
    match load_manifest fs with
    | .error e => .error e
    | .ok _manifest =>
      match filter_uncached fs force states with
      | .error e => .error e
      | .ok states_to_download =>
        if states_to_download.isEmpty then .ok (fs, [])
        else
          .ok ((group_by_region states_to_download).foldl
            (fun acc p =>
              let r := process_region acc.1 p.1 p.2
              (r.1, acc.2 ++ r.2)) (fs, []))

/-- The region URLs passed to `download_region` during a run (empty when
the run failed). -/
def run_download_calls (r : Except ErrKind (CacheFS × List String)) : List String :=
  match r with
  | .error _ => []
  | .ok (_, calls) => calls

/-- A filesystem with an empty cache: no manifest and no files. -/
def empty_fs : CacheFS :=
  ⟨"/home/user", none, fun _ => false, fun _ => false⟩

/-- A manifest with one cached state, CA. -/
def manifest_with_ca : CacheManifest :=
  ⟨1, [("CA", ⟨"2024-01-01 00:00:00", "https://example.com/ca.zip", 10⟩)]⟩

/-- A filesystem whose manifest is `manifest_with_ca` and where every path
exists as a plain file. -/
def fs_with_ca : CacheFS :=
  ⟨"/home/user", some (some manifest_with_ca), fun _ => true, fun _ => false⟩

/-- A filesystem whose manifest file exists but is malformed. -/
def malformed_fs : CacheFS :=
  ⟨"/home/user", some none, fun _ => false, fun _ => false⟩

/-- A filesystem where every path exists, both as a file and a directory,
so both the region ZIP and the region directory are present. -/
def fs_zip_and_dir : CacheFS :=
  ⟨"/home/user", none, fun _ => true, fun _ => true⟩

/-! ## Helper lemmas about the ASCII case model and the region tables -/

theorem toNat_ofNat_valid (n : Nat) (h : n < 55296) : (Char.ofNat n).toNat = n := by
  have hv : Nat.isValidChar n := Or.inl h
  simp [Char.ofNat, hv, Char.ofNatAux, Char.toNat, UInt32.toNat, UInt32.ofNatCore,
    BitVec.toNat_ofNatLt]

theorem char_upper_idem (c : Char) :
    char_to_ascii_upper (char_to_ascii_upper c) = char_to_ascii_upper c := by
  unfold char_to_ascii_upper
  by_cases h : 97 ≤ c.toNat ∧ c.toNat ≤ 122
  · have h2 : (Char.ofNat (c.toNat - 32)).toNat = c.toNat - 32 :=
      toNat_ofNat_valid _ (by omega)
    rw [if_pos h, if_neg]
    rw [h2]
    omega
  · rw [if_neg h, if_neg h]

theorem to_uppercase_idem (s : String) :
    to_uppercase (to_uppercase s) = to_uppercase s := by
  unfold to_uppercase
  apply congrArg
  induction s.data with
  | nil => rfl
  | cons c l ih => simp only [List.map_cons, List.map] at ih ⊢; rw [ih, char_upper_idem]

theorem contains_true_iff (l : List String) (u : String) :
    l.contains u = true ↔ u ∈ l := by
  simp [List.contains, List.elem_iff]

theorem mem_region_partition (u : String) :
    (u ∈ northeast_keys ∨ u ∈ midwest_keys ∨ u ∈ south_keys ∨ u ∈ west_keys)
      ↔ u ∈ ALL_STATES := by
  constructor
  · rintro (h | h | h | h) <;> (fin_cases h <;> decide)
  · intro h; fin_cases h <;> decide

theorem append_space_ne_empty (a b : String) : a ++ " " ++ b ≠ "" := by
  intro h
  have h2 : (a ++ " " ++ b).data = ("" : String).data := by rw [h]
  simp [String.data_append] at h2

theorem get_region_url_isSome_eq (s : String) :
    (get_region_url s).isSome = is_valid_state s := by
  unfold get_region_url is_valid_state
  by_cases h1 : to_uppercase s ∈ northeast_keys
  · simp [h1, (mem_region_partition _).mp (Or.inl h1)]
  by_cases h2 : to_uppercase s ∈ midwest_keys
  · simp [h1, h2, (mem_region_partition _).mp (Or.inr (Or.inl h2))]
  by_cases h3 : to_uppercase s ∈ south_keys
  · simp [h1, h2, h3, (mem_region_partition _).mp (Or.inr (Or.inr (Or.inl h3)))]
  by_cases h4 : to_uppercase s ∈ west_keys
  · simp [h1, h2, h3, h4, (mem_region_partition _).mp (Or.inr (Or.inr (Or.inr h4)))]
  · have hall : to_uppercase s ∉ ALL_STATES := fun hm =>
      ((mem_region_partition _).mpr hm).elim h1 (fun h => h.elim h2 (fun h => h.elim h3 h4))
    simp [h1, h2, h3, h4, hall]

/-! ## Helper lemmas about the `download_region` retry loop -/

theorem go_attempts_le (net : Nat → HttpResponse) :
    ∀ fuel attempt le sl,
      (download_region_go net fuel attempt le sl).attempts_made ≤ attempt + fuel := by
  intro fuel
  induction fuel with
  | zero => intro attempt le sl; simp [download_region_go]
  | succ fuel ih =>
    intro attempt le sl
    simp only [download_region_go]
    cases hnet : net attempt with
    | transport_err e =>
      simp only
      split
      · exact le_trans (ih _ _ _) (by omega)
      · simp
    | resp status body =>
      simp only
      split
      · simp
      · split
        · exact le_trans (ih _ _ _) (by omega)
        · simp

theorem go_retryable (net : Nat → HttpResponse) :
    ∀ fuel attempt le sl k, attempt ≤ k →
      k + 1 < (download_region_go net fuel attempt le sl).attempts_made →
      retryable (net k) := by
  intro fuel
  induction fuel with
  | zero =>
    intro attempt le sl k hk hlt
    simp [download_region_go] at hlt
    omega
  | succ fuel ih =>
    intro attempt le sl k hk hlt
    simp only [download_region_go] at hlt
    cases hnet : net attempt with
    | transport_err e =>
      rw [hnet] at hlt
      simp only at hlt
      split at hlt
      · rcases Nat.eq_or_lt_of_le hk with heq | hlt2
        · rw [← heq, hnet]; trivial
        · exact ih _ _ _ k hlt2 hlt
      · simp at hlt; omega
    | resp status body =>
      rw [hnet] at hlt
      simp only at hlt
      split at hlt
      · simp at hlt; omega
      · split at hlt
        · rename_i h429
          rcases Nat.eq_or_lt_of_le hk with heq | hlt2
          · rw [← heq, hnet]; simpa [retryable] using h429
          · exact ih _ _ _ k hlt2 hlt
        · simp at hlt; omega

theorem take_backoff (attempt : Nat) (h : attempt ≤ 3) :
    (if attempt > 0 then [30, 60, 120].take (attempt - 1) ++ [30 * 2 ^ (attempt - 1)]
     else [30, 60, 120].take (attempt - 1)) = [30, 60, 120].take attempt := by
  interval_cases attempt <;> decide

theorem go_sleeps (net : Nat → HttpResponse) :
    ∀ fuel attempt le, attempt + fuel = 4 →
      (download_region_go net fuel attempt le ([30, 60, 120].take (attempt - 1))).sleeps
        = [30, 60, 120].take
            ((download_region_go net fuel attempt le
              ([30, 60, 120].take (attempt - 1))).attempts_made - 1) := by
  intro fuel
  induction fuel with
  | zero =>
    intro attempt le h4
    have : attempt = 4 := by omega
    subst this
    simp [download_region_go]
  | succ fuel ih =>
    intro attempt le h4
    have hle : attempt ≤ 3 := by omega
    simp only [download_region_go, take_backoff attempt hle]
    cases hnet : net attempt with
    | transport_err e =>
      simp only
      split
      · have := ih (attempt + 1) ("HTTP request failed: " ++ e) (by omega)
        simpa using this
      · simp
    | resp status body =>
      simp only
      split
      · simp
      · split
        · have := ih (attempt + 1) ("HTTP error: " ++ toString status ++ " (rate limited)")
            (by omega)
          simpa using this
        · simp

theorem download_region_stops_on_status (net : Nat → HttpResponse) (k : Nat) (hk : k < 4)
    (hret : ∀ j, j < k → retryable (net j))
    (s : Nat) (b : List Nat) (hnet : net k = .resp s b)
    (hsu : status_is_success s = false) (h429 : s ≠ 429) :
    download_region net
      = ⟨k + 1, [30, 60, 120].take k, .error ("HTTP error: " ++ toString s)⟩ := by
  have hs429 : status_is_success 429 = false := by decide
  interval_cases k
  · simp [download_region, download_region_go, hnet, hsu, h429]
  · have h0 := hret 0 (by omega)
    cases hn0 : net 0 with
    | transport_err e =>
      simp [download_region, download_region_go, hn0, hnet, hsu, h429]
    | resp st b0 =>
      rw [hn0] at h0
      have hst : st = 429 := h0
      subst hst
      simp [download_region, download_region_go, hn0, hnet, hsu, h429, hs429]
  · have h0 := hret 0 (by omega)
    have h1 := hret 1 (by omega)
    cases hn0 : net 0 with
    | transport_err e =>
      cases hn1 : net 1 with
      | transport_err e1 =>
        simp [download_region, download_region_go, hn0, hn1, hnet, hsu, h429]
      | resp st1 b1 =>
        rw [hn1] at h1; have hst : st1 = 429 := h1; subst hst
        simp [download_region, download_region_go, hn0, hn1, hnet, hsu, h429, hs429]
    | resp st b0 =>
      rw [hn0] at h0; have hst : st = 429 := h0; subst hst
      cases hn1 : net 1 with
      | transport_err e1 =>
        simp [download_region, download_region_go, hn0, hn1, hnet, hsu, h429, hs429]
      | resp st1 b1 =>
        rw [hn1] at h1; have hst : st1 = 429 := h1; subst hst
        simp [download_region, download_region_go, hn0, hn1, hnet, hsu, h429, hs429]
  · have h0 := hret 0 (by omega)
    have h1 := hret 1 (by omega)
    have h2 := hret 2 (by omega)
    cases hn0 : net 0 with
    | transport_err e =>
      cases hn1 : net 1 with
      | transport_err e1 =>
        cases hn2 : net 2 with
        | transport_err e2 =>
          simp [download_region, download_region_go, hn0, hn1, hn2, hnet, hsu, h429]
        | resp st2 b2 =>
          rw [hn2] at h2; have hst : st2 = 429 := h2; subst hst
          simp [download_region, download_region_go, hn0, hn1, hn2, hnet, hsu, h429, hs429]
      | resp st1 b1 =>
        rw [hn1] at h1; have hst : st1 = 429 := h1; subst hst
        cases hn2 : net 2 with
        | transport_err e2 =>
          simp [download_region, download_region_go, hn0, hn1, hn2, hnet, hsu, h429, hs429]
        | resp st2 b2 =>
          rw [hn2] at h2; have hst : st2 = 429 := h2; subst hst
          simp [download_region, download_region_go, hn0, hn1, hn2, hnet, hsu, h429, hs429]
    | resp st b0 =>
      rw [hn0] at h0; have hst : st = 429 := h0; subst hst
      cases hn1 : net 1 with
      | transport_err e1 =>
        cases hn2 : net 2 with
        | transport_err e2 =>
          simp [download_region, download_region_go, hn0, hn1, hn2, hnet, hsu, h429, hs429]
        | resp st2 b2 =>
          rw [hn2] at h2; have hst : st2 = 429 := h2; subst hst
          simp [download_region, download_region_go, hn0, hn1, hn2, hnet, hsu, h429, hs429]
      | resp st1 b1 =>
        rw [hn1] at h1; have hst : st1 = 429 := h1; subst hst
        cases hn2 : net 2 with
        | transport_err e2 =>
          simp [download_region, download_region_go, hn0, hn1, hn2, hnet, hsu, h429, hs429]
        | resp st2 b2 =>
          rw [hn2] at h2; have hst : st2 = 429 := h2; subst hst
          simp [download_region, download_region_go, hn0, hn1, hn2, hnet, hsu, h429, hs429]

theorem download_region_exhausts_429 (net : Nat → HttpResponse)
    (h : ∀ k, k < 4 → ∃ b, net k = .resp 429 b) :
    download_region net
      = ⟨4, [30, 60, 120],
          .error "HTTP error: 429 (rate limited) - exhausted all 3 retries"⟩ := by
  obtain ⟨b0, h0⟩ := h 0 (by omega)
  obtain ⟨b1, h1⟩ := h 1 (by omega)
  obtain ⟨b2, h2⟩ := h 2 (by omega)
  obtain ⟨b3, h3⟩ := h 3 (by omega)
  simp [download_region, download_region_go, h0, h1, h2, h3, status_is_success]
  decide

theorem download_region_final_transport (net : Nat → HttpResponse)
    (hret : ∀ j, j < 3 → retryable (net j))
    (e : String) (hnet : net 3 = .transport_err e) :
    download_region net = ⟨4, [30, 60, 120], .error ("HTTP request failed: " ++ e)⟩ := by
  have h0 := hret 0 (by omega)
  have h1 := hret 1 (by omega)
  have h2 := hret 2 (by omega)
  cases hn0 : net 0 with
  | transport_err e0 =>
    cases hn1 : net 1 with
    | transport_err e1 =>
      cases hn2 : net 2 with
      | transport_err e2 =>
        simp [download_region, download_region_go, hn0, hn1, hn2, hnet]
      | resp st2 b2 =>
        rw [hn2] at h2; have hst : st2 = 429 := h2; subst hst
        simp [download_region, download_region_go, hn0, hn1, hn2, hnet, status_is_success]
    | resp st1 b1 =>
      rw [hn1] at h1; have hst : st1 = 429 := h1; subst hst
      cases hn2 : net 2 with
      | transport_err e2 =>
        simp [download_region, download_region_go, hn0, hn1, hn2, hnet, status_is_success]
      | resp st2 b2 =>
        rw [hn2] at h2; have hst : st2 = 429 := h2; subst hst
        simp [download_region, download_region_go, hn0, hn1, hn2, hnet, status_is_success]
  | resp st b0 =>
    rw [hn0] at h0; have hst : st = 429 := h0; subst hst
    cases hn1 : net 1 with
    | transport_err e1 =>
      cases hn2 : net 2 with
      | transport_err e2 =>
        simp [download_region, download_region_go, hn0, hn1, hn2, hnet, status_is_success]
      | resp st2 b2 =>
        rw [hn2] at h2; have hst : st2 = 429 := h2; subst hst
        simp [download_region, download_region_go, hn0, hn1, hn2, hnet, status_is_success]
    | resp st1 b1 =>
      rw [hn1] at h1; have hst : st1 = 429 := h1; subst hst
      cases hn2 : net 2 with
      | transport_err e2 =>
        simp [download_region, download_region_go, hn0, hn1, hn2, hnet, status_is_success]
      | resp st2 b2 =>
        rw [hn2] at h2; have hst : st2 = 429 := h2; subst hst
        simp [download_region, download_region_go, hn0, hn1, hn2, hnet, status_is_success]

/-! ## Claim theorems -/

/-- C4: `is_state_cached` returns `true` exactly when the upper-cased key is
in the loaded manifest's states map AND the per-source artifact file exists
on disk; its boolean result is the conjunction of the two checks, so either
one failing (or both) yields `false`. -/
theorem c4_is_state_cached_conjunction (fs : CacheFS) (state : String)
    (m : CacheManifest) (h : load_manifest fs = .ok m) :
    is_state_cached fs state
      = .ok ((m.states.lookup (to_uppercase state)).isSome
          && fs.path_exists (get_state_cache_path fs state)) := by
  simp only [is_state_cached, h]
  by_cases hk : (m.states.lookup (to_uppercase state)).isSome = true
  · simp [hk]
  · simp [hk]

/-- C4 witness: with CA in the manifest and its artifact present the result
is `true`; with an empty cache it is `false`. -/
theorem c4_witness :
    is_state_cached fs_with_ca "ca" = .ok true
    ∧ is_state_cached empty_fs "ca" = .ok false :=
  ⟨(c4_is_state_cached_conjunction fs_with_ca "ca" manifest_with_ca rfl).trans rfl,
   (c4_is_state_cached_conjunction empty_fs "ca" CacheManifest.zero rfl).trans rfl⟩

/-- C5: for every input string `get_region_url` returns `some` exactly when
`is_valid_state` returns `true`; both are invariant under upper-casing the
input (case-insensitive); `ALL_STATES` has exactly 51 distinct keys, each
accepted by both functions; and every input whose upper-casing lies outside
`ALL_STATES` yields `none` and `false`. -/
theorem c5_region_lookup_agrees_with_validity :
    (∀ s : String, (get_region_url s).isSome = is_valid_state s)
    ∧ (∀ s : String, get_region_url (to_uppercase s) = get_region_url s
        ∧ is_valid_state (to_uppercase s) = is_valid_state s)
    ∧ ALL_STATES.length = 51 ∧ ALL_STATES.Nodup
    ∧ (∀ k, k ∈ ALL_STATES → is_valid_state k = true ∧ (get_region_url k).isSome = true)
    ∧ (∀ s : String, to_uppercase s ∉ ALL_STATES →
        get_region_url s = none ∧ is_valid_state s = false) := by
  refine ⟨get_region_url_isSome_eq, ?_, by decide, by decide, ?_, ?_⟩
  · intro s
    constructor
    · show get_region_url (to_uppercase s) = get_region_url s
      unfold get_region_url
      rw [to_uppercase_idem]
    · show is_valid_state (to_uppercase s) = is_valid_state s
      unfold is_valid_state
      rw [to_uppercase_idem]
  · intro k hk
    fin_cases hk <;> exact ⟨by decide, by decide⟩
  · intro s hs
    have hv : is_valid_state s = false := by
      unfold is_valid_state
      by_contra hb
      exact hs ((contains_true_iff _ _).mp (eq_true_of_ne_false hb))
    refine ⟨?_, hv⟩
    have hiff := get_region_url_isSome_eq s
    rw [hv] at hiff
    cases hgo : get_region_url s with
    | none => rfl
    | some v => rw [hgo] at hiff; simp at hiff

/-- C5 witness: a valid key is accepted and an invalid key yields
`none` / `false`. -/
theorem c5_witness :
    (is_valid_state "AK" = true ∧ (get_region_url "AK").isSome = true)
    ∧ (get_region_url "zz" = none ∧ is_valid_state "zz" = false) :=
  ⟨c5_region_lookup_agrees_with_validity.2.2.2.2.1 "AK" (by decide),
   c5_region_lookup_agrees_with_validity.2.2.2.2.2 "zz" (by decide)⟩

/-- C6: `load_manifest` returns the zero-value manifest (version 0, empty
states map) when no manifest file exists, the deserialized manifest when
the file parses, and an `InvalidData` error when the file exists but its
content is malformed. -/
theorem c6_load_manifest_cases (fs : CacheFS) :
    (fs.manifest_file = none →
      load_manifest fs = .ok CacheManifest.zero
      ∧ CacheManifest.zero.version = 0 ∧ CacheManifest.zero.states = [])
    ∧ (fs.manifest_file = some none → load_manifest fs = .error .invalidData)
    ∧ (∀ m, fs.manifest_file = some (some m) → load_manifest fs = .ok m) := by
  refine ⟨fun h => ⟨?_, rfl, rfl⟩, fun h => ?_, fun m h => ?_⟩ <;> simp [load_manifest, h]

/-- C6 witness: concrete missing and malformed manifest files. -/
theorem c6_witness :
    load_manifest empty_fs = .ok CacheManifest.zero
    ∧ load_manifest malformed_fs = .error .invalidData :=
  ⟨((c6_load_manifest_cases empty_fs).1 rfl).1,
   (c6_load_manifest_cases malformed_fs).2.1 rfl⟩

/-- C7: `get_cached_region` gives the ZIP archive precedence: whenever the
bucket's ZIP file exists it returns the `zip` variant (regardless of any
directory); the `directory` variant is returned only when the ZIP is
absent and the directory path exists and is a directory; otherwise the
result is `none`. -/
theorem c7_zip_precedence (fs : CacheFS) (url : String) :
    (fs.path_exists (get_region_zip_path fs url) = true →
      get_cached_region fs url = some (.zip (get_region_zip_path fs url)))
    ∧ (fs.path_exists (get_region_zip_path fs url) = false →
        (fs.path_exists (get_region_dir_path fs url)
          && fs.is_dir (get_region_dir_path fs url)) = true →
        get_cached_region fs url = some (.directory (get_region_dir_path fs url)))
    ∧ (fs.path_exists (get_region_zip_path fs url) = false →
        (fs.path_exists (get_region_dir_path fs url)
          && fs.is_dir (get_region_dir_path fs url)) = false →
        get_cached_region fs url = none) := by
  refine ⟨fun h => ?_, fun h1 h2 => ?_, fun h1 h2 => ?_⟩ <;>
    simp [get_cached_region, *]

/-- C7 witness: with both the ZIP and the directory present, the ZIP wins. -/
theorem c7_witness :
    get_cached_region fs_zip_and_dir REGION_SOUTH
      = some (.zip (get_region_zip_path fs_zip_and_dir REGION_SOUTH)) :=
  (c7_zip_precedence fs_zip_and_dir REGION_SOUTH).1 rfl

/-- C8: `detect_delimiter` picks the delimiter strictly more frequent in the
header line than both competitors among comma, pipe and tab, defaulting to
comma when neither pipe nor tab strictly dominates; in particular it returns
comma for `"a,b,c"`, pipe for `"a|b|c"`, tab for `"a\tb\tc"`, and comma for
a line with no delimiter characters. -/
theorem c8_detect_delimiter_spec :
    (∀ line : String,
      (count_char line '|' > count_char line ',' ∧ count_char line '|' > count_char line '\t' →
        detect_delimiter line = '|')
      ∧ (count_char line '\t' > count_char line ',' ∧ count_char line '\t' > count_char line '|' →
        detect_delimiter line = '\t')
      ∧ (¬(count_char line '|' > count_char line ',' ∧ count_char line '|' > count_char line '\t') →
        ¬(count_char line '\t' > count_char line ',' ∧ count_char line '\t' > count_char line '|') →
        detect_delimiter line = ','))
    ∧ detect_delimiter "a,b,c" = ','
    ∧ detect_delimiter "a|b|c" = '|'
    ∧ detect_delimiter "a\tb\tc" = '\t'
    ∧ detect_delimiter "abc" = ',' := by
  refine ⟨?_, by decide, by decide, by decide, by decide⟩
  intro line
  refine ⟨fun h => ?_, fun h => ?_, fun h1 h2 => ?_⟩
  · simp only [detect_delimiter]
    rw [if_pos h]
  · simp only [detect_delimiter]
    rw [if_neg (by omega), if_pos h]
  · simp only [detect_delimiter]
    rw [if_neg h1, if_neg h2]

/-- C8 witness: a line where pipe strictly dominates. -/
theorem c8_witness : detect_delimiter "x||y" = '|' :=
  (c8_detect_delimiter_spec.1 "x||y").1 (by decide)

/-- C9: for any permutation-producing shuffle, `shuffle_and_limit` returns
exactly `min limit total` records, all drawn from the accumulated rows; and
in `load_addresses_from_csv`, requesting more than is available returns all
rows with a warning (not an error), requesting exactly the total returns all
rows without a warning, and requesting fewer returns exactly the requested
count after shuffling. -/
theorem c9_sampling_returns_min (shuffle : List Address → List Address)
    (hperm : ∀ l, (shuffle l).Perm l) :
    (∀ addresses limit,
      (shuffle_and_limit shuffle addresses limit).length = min limit addresses.length)
    ∧ (∀ addresses limit a, a ∈ shuffle_and_limit shuffle addresses limit → a ∈ addresses)
    ∧ (∀ (addresses : List Address) requested, addresses.length < requested →
        apply_count_limit shuffle addresses (some requested) = (addresses, true))
    ∧ (∀ (addresses : List Address) requested, requested = addresses.length →
        apply_count_limit shuffle addresses (some requested) = (addresses, false))
    ∧ (∀ (addresses : List Address) requested, requested < addresses.length →
        (apply_count_limit shuffle addresses (some requested)).1.length = requested
        ∧ (apply_count_limit shuffle addresses (some requested)).2 = false) := by
  refine ⟨?_, ?_, ?_, ?_, ?_⟩
  · intro addresses limit
    have hlen := (hperm addresses).length_eq
    simp only [shuffle_and_limit]
    split
    · rename_i h
      simp only [List.length_take]
      omega
    · rename_i h
      omega
  · intro addresses limit a ha
    simp only [shuffle_and_limit] at ha
    split at ha
    · exact (hperm addresses).mem_iff.mp (List.mem_of_mem_take ha)
    · exact (hperm addresses).mem_iff.mp ha
  · intro addresses requested h
    simp [apply_count_limit, Nat.le_of_lt h, h]
  · intro addresses requested h
    subst h
    simp [apply_count_limit]
  · intro addresses requested h
    have hlen := (hperm addresses).length_eq
    constructor
    · simp only [apply_count_limit]
      rw [if_neg (by omega)]
      simp only [List.length_take]
      omega
    · simp only [apply_count_limit]
      rw [if_neg (by omega)]

/-- C9 witness: three rows with limit two give exactly two rows; one row
with five requested gives the row plus a warning. -/
theorem c9_witness :
    (shuffle_and_limit id
      [⟨"a", "", "", "", ""⟩, ⟨"b", "", "", "", ""⟩, ⟨"c", "", "", "", ""⟩] 2).length = 2
    ∧ apply_count_limit id [⟨"a", "", "", "", ""⟩] (some 5)
      = ([⟨"a", "", "", "", ""⟩], true) := by
  constructor
  · have h := (c9_sampling_returns_min id (fun l => List.Perm.refl l)).1
      [⟨"a", "", "", "", ""⟩, ⟨"b", "", "", "", ""⟩, ⟨"c", "", "", "", ""⟩] 2
    simpa using h
  · exact (c9_sampling_returns_min id (fun l => List.Perm.refl l)).2.2.1
      [⟨"a", "", "", "", ""⟩] 5 (by decide)

/-- C2 counterexample: a row whose trimmed street is `"Main St"` but whose
trimmed city is empty has exactly one of the two fields present, so the
claim says it is kept; the code drops it (the parse result is empty). -/
theorem c2_counterexample :
    parse_openaddresses_csv ["NUMBER", "STREET", "CITY", "REGION", "POSTCODE"]
      [["123", "Main St", "", "IL", "62701"]] = []
    ∧ resolved_street ["NUMBER", "STREET", "CITY", "REGION", "POSTCODE"]
        ["123", "Main St", "", "IL", "62701"] = "Main St"
    ∧ resolved_city ["NUMBER", "STREET", "CITY", "REGION", "POSTCODE"]
        ["123", "Main St", "", "IL", "62701"] = "" :=
  ⟨by decide, by decide, by decide⟩

/-- C2 (amended): in the archive-extraction CSV parser a row is dropped if
and only if its trimmed street is empty OR its trimmed city is empty; a row
is kept exactly when both are non-empty, so a row with exactly one of the
two present is also dropped. -/
theorem c2_row_dropped_iff (headers record : List String) :
    (parse_openaddresses_csv headers [record] = []
      ↔ resolved_street headers record = "" ∨ resolved_city headers record = "")
    ∧ (parse_openaddresses_csv headers [record] ≠ []
      ↔ resolved_street headers record ≠ "" ∧ resolved_city headers record ≠ "") := by
  cases hb : ((resolved_street headers record).isEmpty
      || (resolved_city headers record).isEmpty) with
  | true =>
    have hp : parse_row headers record = none := by
      simp only [parse_row]
      rw [if_pos hb]
    have hnil : parse_openaddresses_csv headers [record] = [] := by
      simp [parse_openaddresses_csv, hp]
    have hor : resolved_street headers record = "" ∨ resolved_city headers record = "" := by
      rcases Bool.or_eq_true_iff.mp hb with h | h
      · exact Or.inl ((String.isEmpty_iff _).mp h)
      · exact Or.inr ((String.isEmpty_iff _).mp h)
    refine ⟨iff_of_true hnil hor, iff_of_false (by simp [hnil]) ?_⟩
    rintro ⟨hs, hc⟩
    exact hor.elim hs hc
  | false =>
    have hor := Bool.or_eq_false_iff.mp hb
    have hs : resolved_street headers record ≠ "" := by
      intro he
      rw [he] at hor
      exact absurd hor.1 (by decide)
    have hc : resolved_city headers record ≠ "" := by
      intro he
      rw [he] at hor
      exact absurd hor.2 (by decide)
    have hp : ∃ a, parse_row headers record = some a := by
      simp only [parse_row]
      rw [if_neg (by simp [hb])]
      exact ⟨_, rfl⟩
    obtain ⟨a, ha⟩ := hp
    have hcons : parse_openaddresses_csv headers [record] = [a] := by
      simp [parse_openaddresses_csv, ha]
    refine ⟨iff_of_false (by simp [hcons]) ?_, iff_of_true (by simp [hcons]) ⟨hs, hc⟩⟩
    rintro (h | h)
    · exact hs h
    · exact hc h

/-- C2 witness: a complete row is kept. -/
theorem c2_witness :
    parse_openaddresses_csv ["NUMBER", "STREET", "CITY", "REGION", "POSTCODE"]
      [["123", "Main St", "Springfield", "IL", "62701"]] ≠ [] :=
  (c2_row_dropped_iff ["NUMBER", "STREET", "CITY", "REGION", "POSTCODE"]
    ["123", "Main St", "Springfield", "IL", "62701"]).2.mpr ⟨by decide, by decide⟩

/-- C10: every address produced by `parse_openaddresses_csv` has a
non-empty `address1` and a non-empty `city`, and its `address1` comes from
a source row with a non-empty street: it is either exactly that street or
the number and the street joined by a space — never the bare number. -/
theorem c10_parsed_address_invariant (headers : List String)
    (records : List (List String)) (a : Address)
    (ha : a ∈ parse_openaddresses_csv headers records) :
    a.address1 ≠ "" ∧ a.city ≠ ""
    ∧ ∃ record, record ∈ records
        ∧ resolved_street headers record ≠ ""
        ∧ (a.address1 = resolved_street headers record
          ∨ a.address1
              = resolved_number headers record ++ " " ++ resolved_street headers record) := by
  rw [parse_openaddresses_csv, List.mem_filterMap] at ha
  obtain ⟨r, hr, hpr⟩ := ha
  simp only [parse_row] at hpr
  cases hb : ((resolved_street headers r).isEmpty || (resolved_city headers r).isEmpty) with
  | true =>
    rw [if_pos hb] at hpr
    exact absurd hpr (by simp)
  | false =>
    rw [if_neg (by simp [hb])] at hpr
    have hor := Bool.or_eq_false_iff.mp hb
    have hs : resolved_street headers r ≠ "" := by
      intro he; rw [he] at hor; exact absurd hor.1 (by decide)
    have hc : resolved_city headers r ≠ "" := by
      intro he; rw [he] at hor; exact absurd hor.2 (by decide)
    rw [Option.some.injEq] at hpr
    subst hpr
    cases hn : (!(resolved_number headers r).isEmpty
        && !(resolved_street headers r).isEmpty) with
    | true =>
      exact ⟨append_space_ne_empty _ _, hc, r, hr, hs, Or.inr rfl⟩
    | false =>
      exact ⟨hs, hc, r, hr, hs, Or.inl rfl⟩

/-- C10 witness: the invariant holds for a concrete parsed address. -/
theorem c10_witness :
    (Address.mk "123 Main St" "" "Springfield" "IL" "62701").address1 ≠ ""
    ∧ (Address.mk "123 Main St" "" "Springfield" "IL" "62701").city ≠ "" := by
  have h := c10_parsed_address_invariant
    ["NUMBER", "STREET", "CITY", "REGION", "POSTCODE"]
    [["123", "Main St", "Springfield", "IL", "62701"]]
    ⟨"123 Main St", "", "Springfield", "IL", "62701"⟩ (by decide)
  exact ⟨h.1, h.2.1⟩

/-- C1: evaluating the orchestrator at the failing input — two uncached
states of the same bucket (`AL` and `AR`, both in `us_south`) with an empty
cache — shows `download_region` is called twice for that one bucket in a
single run, because the per-bucket `cached_region` value is computed before
the per-state loop and never refreshed after the first download saves the
ZIP; the claim (at most one fetch per bucket per run) requires this count
to be at most 1. -/
theorem c1_bucket_downloaded_twice_on_failing_input :
    run_download_calls (download_states empty_fs ["AL", "AR"] false)
      = [REGION_SOUTH, REGION_SOUTH]
    ∧ (run_download_calls (download_states empty_fs ["AL", "AR"] false)).count REGION_SOUTH
      = 2 :=
  ⟨rfl, rfl⟩

/-- C3 counterexample: four consecutive transport failures consume the
whole retry budget (4 attempts, all three backoff sleeps), yet the
resulting error is the bare last cause `"HTTP request failed: boom"` and
does not name the retry budget consumed, contradicting the claim that
exhausting all retries always yields an error naming both. -/
theorem c3_counterexample :
    (download_region (fun _ => .transport_err "boom")).attempts_made = 4
    ∧ (download_region (fun _ => .transport_err "boom")).sleeps = [30, 60, 120]
    ∧ (download_region (fun _ => .transport_err "boom")).result
        = .error "HTTP request failed: boom"
    ∧ mentions_retry_budget "HTTP request failed: boom" = false :=
  ⟨rfl, rfl, rfl, by decide⟩

/-- C3 (amended): `download_region` makes at most 4 HTTP attempts (1 + up
to 3 retries); the sleeps before the retries are exactly the first
`attempts - 1` of 30, 60, 120 seconds; every non-final attempt was a
transport failure or HTTP 429 (only those are retried); any other
non-success status stops the run immediately with an `HTTP error` message;
and exhausting the budget ends with 4 attempts, where a final 429 yields an
error naming the last cause and the consumed retry budget while a final
transport failure yields an error naming only the last cause. -/
theorem c3_download_region_retry_policy (net : Nat → HttpResponse) :
    (download_region net).attempts_made ≤ 4
    ∧ (download_region net).sleeps
        = [30, 60, 120].take ((download_region net).attempts_made - 1)
    ∧ (∀ k, k + 1 < (download_region net).attempts_made → retryable (net k))
    ∧ (∀ k, k < 4 → (∀ j, j < k → retryable (net j)) →
        ∀ s b, net k = .resp s b → status_is_success s = false → s ≠ 429 →
          download_region net
            = ⟨k + 1, [30, 60, 120].take k, .error ("HTTP error: " ++ toString s)⟩)
    ∧ ((∀ k, k < 4 → ∃ b, net k = .resp 429 b) →
        download_region net
          = ⟨4, [30, 60, 120],
              .error "HTTP error: 429 (rate limited) - exhausted all 3 retries"⟩)
    ∧ ((∀ j, j < 3 → retryable (net j)) → ∀ e, net 3 = .transport_err e →
        download_region net
          = ⟨4, [30, 60, 120], .error ("HTTP request failed: " ++ e)⟩) := by
  refine ⟨go_attempts_le net 4 0 "" [], go_sleeps net 4 0 "" rfl,
    fun k => go_retryable net 4 0 "" [] k (Nat.zero_le k),
    fun k hk hret s b hnet hsu h429 =>
      download_region_stops_on_status net k hk hret s b hnet hsu h429,
    download_region_exhausts_429 net,
    download_region_final_transport net⟩

/-- C3 witness: a permanently rate-limited endpoint consumes all four
attempts and all three sleeps, and ends with the exhausted-retries error. -/
theorem c3_witness :
    download_region (fun _ => .resp 429 [])
      = ⟨4, [30, 60, 120],
          .error "HTTP error: 429 (rate limited) - exhausted all 3 retries"⟩ :=
  (c3_download_region_retry_policy (fun _ => .resp 429 [])).2.2.2.2.1
    (fun _ _ => ⟨[], rfl⟩)

end RustFaker
